import Mathlib

/-!
Verification development for the `llm_mcq_generation` repository.

Strings are embedded as `List Char` (`Str`), so that every operation is an
executable, kernel-reducible Lean function. The remote chat-completion
endpoint (`openai.chat.completions.create`, wrapped by
`MCQGenerator._query_openai`) is modelled as a function
`svc : Nat → Str → Nat → Option Str` from (call index, prompt, max_tokens)
to the trimmed completion text, `none` standing for a failed call (Python
returns `None` from the `except` branch). The number of calls issued so far is
threaded through every operation as an explicit counter `k`, which models
the strictly sequential call order of the script. `random.shuffle` is
modelled as an explicit parameter `shuffle : List Str → List Str`, assumed
to permute its argument where a theorem needs it.
-/

abbrev Str := List Char

def str (s : String) : Str := s.data

/-- Character class of Python's `\s` (whitespace), restricted to the ASCII
whitespace characters; the sources only ever feed ASCII text through it. -/
def isSpace (c : Char) : Bool :=
  c = ' ' || c = '\t' || c = '\n' || c = '\r' || c = '\x0b' || c = '\x0c'

/-- Character class of Python's `\w` (word characters), ASCII range. -/
def isWord (c : Char) : Bool :=
  c.isAlphanum || c = '_'

/-- Characters kept by the second substitution of
`TextPreprocessor.clean_text`, i.e. the class `[\w\s.,!?]`. -/
def isAllowed (c : Char) : Bool :=
  isWord c || isSpace c || c = '.' || c = ',' || c = '!' || c = '?'

/-- The first substitution of `TextPreprocessor.clean_text`:
`re.sub(r"\s+", " ", text)` replaces every maximal run of whitespace by a
single space. The flag records whether the previous character belonged to a
whitespace run already replaced. -/
def collapseWsAux : Bool → Str → Str
  | _, [] => []
  | prev, c :: cs =>
    if isSpace c then
      if prev then collapseWsAux true cs
      else ' ' :: collapseWsAux true cs
    else c :: collapseWsAux false cs

/-- Embedding of `TextPreprocessor.clean_text` from
`src/llm_mcq/processors/text_processor.py`:
first `re.sub(r"\s+", " ", text)`, then `re.sub(r"[^\w\s.,!?]", "", text)`. -/
def clean_text (text : Str) : Str :=
  (collapseWsAux false text).filter isAllowed

/-- Decides that a character list has no two adjacent whitespace characters. -/
def noConsecWs : Str → Bool
  | [] => true
  | [_] => true
  | a :: b :: rest => !(isSpace a && isSpace b) && noConsecWs (b :: rest)

theorem collapseWsAux_head_nonspace (s : Str) :
    ∀ c cs, collapseWsAux true s = c :: cs → isSpace c = false := by
  induction s with
  | nil => intro c cs h; simp [collapseWsAux] at h
  | cons a t ih =>
    intro c cs h
    by_cases ha : isSpace a
    · simp [collapseWsAux, ha] at h
      exact ih c cs h
    · simp [collapseWsAux, ha] at h
      obtain ⟨h1, _⟩ := h
      subst h1
      simp [ha]

theorem noConsecWs_cons_of_head (a : Char) (l : Str)
    (ha : isSpace a = false) (hl : noConsecWs l = true) :
    noConsecWs (a :: l) = true := by
  cases l with
  | nil => simp [noConsecWs]
  | cons b t => simp [noConsecWs, ha] at hl ⊢; exact hl

theorem noConsecWs_collapse (s : Str) :
    ∀ b, noConsecWs (collapseWsAux b s) = true := by
  induction s with
  | nil => intro b; simp [collapseWsAux, noConsecWs]
  | cons a t ih =>
    intro b
    by_cases ha : isSpace a
    · cases b with
      | true => simpa [collapseWsAux, ha] using ih true
      | false =>
        simp only [collapseWsAux, ha, if_pos, if_true]
        rcases hE : collapseWsAux true t with _ | ⟨c, cs⟩
        · simp [noConsecWs]
        · have hc : isSpace c = false := collapseWsAux_head_nonspace t c cs hE
          have ht : noConsecWs (c :: cs) = true := by
            have := ih true; rw [hE] at this; exact this
          cases cs with
          | nil => simp [noConsecWs, hc]
          | cons d ds =>
            simp [noConsecWs, hc] at ht ⊢
            exact ht
    · have hrec := ih false
      simp only [collapseWsAux, ha, if_neg, if_false, Bool.false_eq_true]
      exact noConsecWs_cons_of_head a _ (by simp [ha]) hrec

theorem collapseWsAux_idem (s : Str) :
    ∀ b, collapseWsAux b (collapseWsAux b s) = collapseWsAux b s := by
  induction s with
  | nil => intro b; simp [collapseWsAux]
  | cons a t ih =>
    intro b
    by_cases ha : isSpace a
    · cases b with
      | true => simp only [collapseWsAux, ha, if_true]; exact ih true
      | false =>
        simp only [collapseWsAux, ha, if_true, Bool.false_eq_true, if_false]
        have hsp : isSpace ' ' = true := by simp [isSpace]
        simp only [collapseWsAux, hsp, if_true, Bool.false_eq_true, if_false]
        rw [ih true]
    · simp only [collapseWsAux, ha, Bool.false_eq_true, if_false]
      rw [ih false]

theorem mem_collapseWsAux (s : Str) :
    ∀ b c, c ∈ collapseWsAux b s → c = ' ' ∨ c ∈ s := by
  induction s with
  | nil => intro b c h; simp [collapseWsAux] at h
  | cons a t ih =>
    intro b c h
    by_cases ha : isSpace a
    · cases b with
      | true =>
        simp only [collapseWsAux, ha, if_true] at h
        rcases ih true c h with h1 | h1
        · exact Or.inl h1
        · exact Or.inr (List.mem_cons_of_mem a h1)
      | false =>
        simp only [collapseWsAux, ha, if_true, Bool.false_eq_true, if_false,
          List.mem_cons] at h
        rcases h with h1 | h1
        · exact Or.inl h1
        · rcases ih true c h1 with h2 | h2
          · exact Or.inl h2
          · exact Or.inr (List.mem_cons_of_mem a h2)
    · simp only [collapseWsAux, ha, Bool.false_eq_true, if_false,
        List.mem_cons] at h
      rcases h with h1 | h1
      · exact Or.inr (by simp [h1])
      · rcases ih false c h1 with h2 | h2
        · exact Or.inl h2
        · exact Or.inr (List.mem_cons_of_mem a h2)

theorem clean_text_chars_allowed (s : Str) :
    ∀ c ∈ clean_text s, isAllowed c = true := by
  intro c hc
  exact List.of_mem_filter hc

theorem clean_text_of_allowed (s : Str) (h : ∀ c ∈ s, isAllowed c = true) :
    clean_text s = collapseWsAux false s := by
  unfold clean_text
  apply List.filter_eq_self.mpr
  intro c hc
  rcases mem_collapseWsAux s false c hc with h1 | h1
  · subst h1; simp [isAllowed, isSpace]
  · exact h c h1

theorem clean_text_idem_of_allowed (s : Str) (h : ∀ c ∈ s, isAllowed c = true) :
    clean_text (clean_text s) = clean_text s := by
  have h1 : clean_text s = collapseWsAux false s := clean_text_of_allowed s h
  have h2 : ∀ c ∈ collapseWsAux false s, isAllowed c = true := by
    intro c hc
    rcases mem_collapseWsAux s false c hc with h3 | h3
    · subst h3; simp [isAllowed, isSpace]
    · exact h c h3
  rw [h1, clean_text_of_allowed _ h2, collapseWsAux_idem]

/-- Splits a character list at newline characters, mirroring Python's
`s.split("\n")` (so the empty string splits into one empty line). -/
def splitLinesAux : Str → Str → List Str
  | [], acc => [acc.reverse]
  | c :: cs, acc =>
    if c = '\n' then acc.reverse :: splitLinesAux cs []
    else splitLinesAux cs (c :: acc)

def splitLines (s : Str) : List Str := splitLinesAux s []

/-- Joins lines with newline separators, mirroring Python's `"\n".join(lines)`. -/
def joinLines : List Str → Str
  | [] => []
  | [l] => l
  | l :: l2 :: ls => l ++ '\n' :: joinLines (l2 :: ls)

theorem splitLinesAux_ne_nil (s : Str) : ∀ acc, splitLinesAux s acc ≠ [] := by
  induction s with
  | nil => intro acc; simp [splitLinesAux]
  | cons c cs ih =>
    intro acc
    by_cases hc : c = '\n'
    · simp [splitLinesAux, hc]
    · simp only [splitLinesAux, hc, if_false]
      exact ih (c :: acc)

theorem joinLines_splitLinesAux (s : Str) :
    ∀ acc, joinLines (splitLinesAux s acc) = acc.reverse ++ s := by
  induction s with
  | nil => intro acc; simp [splitLinesAux, joinLines]
  | cons c cs ih =>
    intro acc
    by_cases hc : c = '\n'
    · subst hc
      simp only [splitLinesAux, if_pos rfl]
      rcases hE : splitLinesAux cs [] with _ | ⟨x, xs⟩
      · exact absurd hE (splitLinesAux_ne_nil cs [])
      · have := ih ([] : Str)
        rw [hE] at this
        simp only [List.reverse_nil, List.nil_append] at this
        simp [joinLines, this]
    · simp only [splitLinesAux, hc, if_false]
      rw [ih (c :: acc)]
      simp

theorem joinLines_splitLines (s : Str) : joinLines (splitLines s) = s := by
  simpa using joinLines_splitLinesAux s []

/-- Python's `str.strip()` with no argument: drop whitespace from both ends. -/
def strip (s : Str) : Str :=
  ((s.dropWhile isSpace).reverse.dropWhile isSpace).reverse

theorem dropWhile_isSpace_idem (l : Str) :
    (l.dropWhile isSpace).dropWhile isSpace = l.dropWhile isSpace := by
  induction l with
  | nil => simp
  | cons a t ih =>
    by_cases ha : isSpace a
    · simp [List.dropWhile_cons, ha, ih]
    · simp [List.dropWhile_cons, ha]

theorem dropWhile_head_false (l : Str) :
    ∀ c cs, l.dropWhile isSpace = c :: cs → isSpace c = false := by
  induction l with
  | nil => intro c cs h; simp at h
  | cons a t ih =>
    intro c cs h
    by_cases ha : isSpace a
    · rw [List.dropWhile_cons_of_pos ha] at h
      exact ih c cs h
    · rw [List.dropWhile_cons_of_neg ha] at h
      cases h
      simpa using ha

theorem dropWhile_getLast (l : Str) (h : l.dropWhile isSpace ≠ []) :
    (l.dropWhile isSpace).getLast? = l.getLast? := by
  induction l with
  | nil => simp at h
  | cons a t ih =>
    by_cases ha : isSpace a
    · rw [List.dropWhile_cons_of_pos ha] at h ⊢
      cases t with
      | nil => simp at h
      | cons b u =>
        rw [List.getLast?_cons_cons]
        exact ih h
    · rw [List.dropWhile_cons_of_neg ha]

theorem dropWhile_eq_self_of_head (l : Str)
    (h : ∀ c cs, l = c :: cs → isSpace c = false) :
    l.dropWhile isSpace = l := by
  cases l with
  | nil => simp
  | cons a t =>
    have := h a t rfl
    simp [List.dropWhile_cons, this]

theorem strip_head (s : Str) :
    ∀ c cs, strip s = c :: cs → isSpace c = false := by
  intro c cs h
  unfold strip at h
  have h1 : ((s.dropWhile isSpace).reverse.dropWhile isSpace).getLast? = some c := by
    rw [← List.head?_reverse, h]
    rfl
  have hne : (s.dropWhile isSpace).reverse.dropWhile isSpace ≠ [] := by
    intro hcon
    rw [hcon] at h1
    simp at h1
  have h2 : ((s.dropWhile isSpace).reverse).getLast? = some c := by
    rw [← dropWhile_getLast _ hne]
    exact h1
  rw [List.getLast?_reverse] at h2
  rcases hE : s.dropWhile isSpace with _ | ⟨d, ds⟩
  · rw [hE] at h2; simp at h2
  · rw [hE] at h2
    simp only [List.head?_cons, Option.some_inj] at h2
    subst h2
    exact dropWhile_head_false s d ds hE

theorem strip_idem (s : Str) : strip (strip s) = strip s := by
  have step1 : (strip s).dropWhile isSpace = strip s :=
    dropWhile_eq_self_of_head _ (strip_head s)
  show (((strip s).dropWhile isSpace).reverse.dropWhile isSpace).reverse = strip s
  rw [step1]
  show (((((s.dropWhile isSpace).reverse.dropWhile isSpace).reverse).reverse).dropWhile
    isSpace).reverse = strip s
  rw [List.reverse_reverse, dropWhile_isSpace_idem]
  rfl

/-- Python's `str.lower()`, ASCII range (the marker is pure ASCII). -/
def toLowerStr (s : Str) : Str := s.map Char.toLower

/-- The literal marker of `extract_question`: `"**correct answer:**"`. -/
def answerMarker : Str := str "**correct answer:**"

/-- Tests `line.lower().startswith("**correct answer:**")`. -/
def isAnswerLine (line : Str) : Bool := answerMarker.isPrefixOf (toLowerStr line)

/-- Embedding of `extract_question` from `src/mcq_generator.py`: split into
lines, drop every line whose lowercased form starts with the correct-answer
marker, rejoin with newlines and strip surrounding whitespace. -/
def extract_question (mcq_with_answer : Str) : Str :=
  strip (joinLines ((splitLines mcq_with_answer).filter (fun line => !isAnswerLine line)))

theorem extract_question_eq_strip_of_clean (t : Str)
    (h : ∀ line ∈ splitLines t, isAnswerLine line = false) :
    extract_question t = strip t := by
  unfold extract_question
  have hf : (splitLines t).filter (fun line => !isAnswerLine line) = splitLines t := by
    apply List.filter_eq_self.mpr
    intro a ha
    simp [h a ha]
  rw [hf, joinLines_splitLines]

/-- The option-line test of `reorder_options`:
`line.startswith(("a)", "b)", "c)", "d)"))`. -/
def isOptionLine (line : Str) : Bool :=
  (str "a)").isPrefixOf line || (str "b)").isPrefixOf line ||
  (str "c)").isPrefixOf line || (str "d)").isPrefixOf line

/-- Embedding of `MCQGenerator.reorder_options` from `src/mcq_generator.py`:
split the base MCQ into lines, keep the lines that start with one of the four
option markers, shuffle them (`random.shuffle`, modelled by the `shuffle`
parameter) and rejoin with newlines. -/
def reorder_options (shuffle : List Str → List Str) (base_mcq : Str) : Str :=
  joinLines (shuffle ((splitLines base_mcq).filter isOptionLine))

/-- An ASCII single-quote character (used by prompt-template literals). -/
def squote : Char := Char.ofNat 39

/-- Decimal rendering of a number, as Python interpolates `{n}`. -/
def natStr (n : Nat) : Str := (Nat.repr n).data

/-- Type of the completion-service oracle: given the index of the call in the
strictly sequential call order, the fully substituted prompt, and the
`max_tokens` cap, it yields the value `MCQGenerator._query_openai` returns —
`some` of the stripped completion text on success, `none` when the call
raised and the `except` branch returned `None`. Model identifier and the
fixed temperature 0.7 are constants of every request and are absorbed into
the oracle. -/
abbrev Svc := Nat → Str → Nat → Option Str

/-- Embedding of `MCQGenerator._query_openai` from `src/mcq_generator.py`:
issues one completion request and advances the call counter. The pair is
(result, new call counter). -/
def queryOpenai (svc : Svc) (k : Nat) (prompt : Str) (maxTokens : Nat) :
    Option Str × Nat :=
  (svc k prompt maxTokens, k + 1)

/-- `BASE_PROMPT_TEMPLATE.format(text=text)` from `src/mcq_generator.py`. -/
def BASE_PROMPT_TEMPLATE (text : Str) : Str :=
  str "\nUsing the text below, create a multiple-choice question (MCQ) with four answer options (a, b, c, d) and provide the correct answer. Indicate the correct answer explicitly.\n\nText:\n" ++
  text ++ str "\n\nMCQ Question with Answer: \n"

/-- `CHAIN_OF_THOUGHT_PROMPT_TEMPLATE.format(text=..., base_mcq_question=...)`. -/
def CHAIN_OF_THOUGHT_PROMPT_TEMPLATE (text base_mcq_question : Str) : Str :=
  str "\nUsing the text below, answer the following question step by step with reasoning. Base your reasoning only on the given text.\n\nText:\n" ++
  text ++ str "\n\nQuestion:\n" ++ base_mcq_question ++
  str "\n\nAnswer with reasoning:\n"

/-- `SELF_CONSISTENCY_PROMPT_TEMPLATE.format(text=..., base_mcq_question=...)`. -/
def SELF_CONSISTENCY_PROMPT_TEMPLATE (text base_mcq_question : Str) : Str :=
  str "\nUsing the text below, select the most probable answer to the question. Your answer should be based on reasoning within the context of the text. Repeat the process multiple times to ensure consistency.\n\nText:\n" ++
  text ++ str "\n\nQuestion:\n" ++ base_mcq_question ++
  str "\n\nAnswer with reasoning:\n"

/-- `NONE_OF_THE_ABOVE_PROMPT_TEMPLATE.format(text=..., base_mcq_question=...)`. -/
def NONE_OF_THE_ABOVE_PROMPT_TEMPLATE (text base_mcq_question : Str) : Str :=
  str "\nUsing the text below, create an MCQ question where the correct answer is replaced by \"None of the above.\" Generate plausible incorrect options.\n\nText:\n" ++
  text ++ str "\n\nBase Question:\n" ++ base_mcq_question ++
  str "\n\nMCQ with " ++ [squote] ++ str "None of the above" ++ [squote] ++ str ":\n"

/-- `TRUE_FALSE_PROMPT_TEMPLATE.format(text=..., base_mcq_question=...)`. -/
def TRUE_FALSE_PROMPT_TEMPLATE (text base_mcq_question : Str) : Str :=
  str "\nUsing the text below, create True-or-False questions based on the options from the following MCQ.\n\nText:\n" ++
  text ++ str "\n\nMCQ:\n" ++ base_mcq_question ++
  str "\n\nTrue-or-False Questions:\n"

/-- The inline f-string prompt of `generate_mcq_with_varying_options`
(indentation of the Python source literal preserved). -/
def VARYING_OPTIONS_PROMPT (base_mcq : Str) (n : Nat) : Str :=
  str "\n            Transform the following MCQ into one with " ++ natStr n ++
  str " answer options. Ensure options are plausible and one is correct.\n\n            Original MCQ:\n            " ++
  base_mcq ++ str "\n\n            MCQ with " ++ natStr n ++
  str " options:\n            "

/-- Embedding of `MCQGenerator.generate_mcq_with_answer`: formats the given
template with the text and issues one completion request capped at 500
tokens. -/
def generate_mcq_with_answer (svc : Svc) (k : Nat) (text : Str)
    (prompt_template : Str → Str) : Option Str × Nat :=
  queryOpenai svc k (prompt_template text) 500

/-- Payload of one entry of the `variants` dictionary: `reorder_options`
stores a plain string, `generate_mcq_with_varying_options` a list of
per-count responses, the other two a single response (`None` on failure). -/
inductive Payload where
  | pstr : Str → Payload
  | popt : Option Str → Payload
  | plist : List (Option Str) → Payload
deriving DecidableEq

/-- Embedding of `MCQGenerator.generate_mcq_with_varying_options`: one
completion request per entry of `num_options` (default `[2, 3, 6]`), each
with the default 1500-token cap, collecting responses in order. -/
def generate_mcq_with_varying_options (svc : Svc) (k : Nat) (base_mcq : Str) :
    List Nat → List (Option Str) × Nat
  | [] => ([], k)
  | n :: rest =>
    let r := queryOpenai svc k (VARYING_OPTIONS_PROMPT base_mcq n) 1500
    let next := generate_mcq_with_varying_options svc r.2 base_mcq rest
    (r.1 :: next.1, next.2)

/-- Embedding of `MCQGenerator.replace_with_none_of_the_above`. -/
def replace_with_none_of_the_above (svc : Svc) (k : Nat) (text base_mcq : Str) :
    Option Str × Nat :=
  queryOpenai svc k (NONE_OF_THE_ABOVE_PROMPT_TEMPLATE text base_mcq) 1500

/-- Embedding of `MCQGenerator.generate_true_false_questions`. -/
def generate_true_false_questions (svc : Svc) (k : Nat) (text base_mcq : Str) :
    Option Str × Nat :=
  queryOpenai svc k (TRUE_FALSE_PROMPT_TEMPLATE text base_mcq) 1500

/-- The default variant-kind list substituted by `generate_mcq_variants` when
`selected_variants` is falsy (Python `if not selected_variants`, which is
taken both for `None` and for an empty list). -/
def defaultVariants : List Str :=
  [str "Re-ordered Options", str "Varying Options",
   str "None of the Above", str "True or False"]

/-- Embedding of `MCQGenerator.generate_mcq_variants` from
`src/mcq_generator.py`. A `none` selection models Python's `None` default;
`if not selected_variants` replaces both `None` and the empty list by
`defaultVariants`. The variants dictionary is modelled as an association
list in insertion order. -/
def generate_mcq_variants (svc : Svc) (shuffle : List Str → List Str) (k : Nat)
    (text base_mcq : Str) (selected_variants : Option (List Str)) :
    List (Str × Payload) × Nat :=
  let sel := match selected_variants with
    | none => defaultVariants
    | some l => if l = [] then defaultVariants else l
  let s1 : List (Str × Payload) × Nat :=
    if str "Re-ordered Options" ∈ sel then
      ([(str "Re-ordered Options", Payload.pstr (reorder_options shuffle base_mcq))], k)
    else ([], k)
  let s2 : List (Str × Payload) × Nat :=
    if str "Varying Options" ∈ sel then
      let v := generate_mcq_with_varying_options svc s1.2 base_mcq [2, 3, 6]
      (s1.1 ++ [(str "Varying Options", Payload.plist v.1)], v.2)
    else s1
  let s3 : List (Str × Payload) × Nat :=
    if str "None of the Above" ∈ sel then
      let v := replace_with_none_of_the_above svc s2.2 text base_mcq
      (s2.1 ++ [(str "None of the Above", Payload.popt v.1)], v.2)
    else s2
  let s4 : List (Str × Payload) × Nat :=
    if str "True or False" ∈ sel then
      let v := generate_true_false_questions svc s3.2 text base_mcq
      (s3.1 ++ [(str "True or False", Payload.popt v.1)], v.2)
    else s3
  s4

/-- Embedding of `MCQGenerator.evaluate_with_cot`: one completion request
with the Chain-of-Thought template and a 1500-token cap. -/
def evaluate_with_cot (svc : Svc) (k : Nat) (text question : Str) :
    Option Str × Nat :=
  queryOpenai svc k (CHAIN_OF_THOUGHT_PROMPT_TEMPLATE text question) 1500

/-- Embedding of `MCQGenerator.evaluate_with_self_consistency` (default
`n_samples=5`): `n_samples` sequential completion requests with the
Self-Consistency template and a 1000-token cap each, collecting the raw
per-call results in call order. -/
def evaluate_with_self_consistency (svc : Svc) (text question : Str) :
    Nat → Nat → List (Option Str) × Nat
  | k, 0 => ([], k)
  | k, n + 1 =>
    let r := queryOpenai svc k (SELF_CONSISTENCY_PROMPT_TEMPLATE text question) 1000
    let rest := evaluate_with_self_consistency svc text question r.2 n
    (r.1 :: rest.1, rest.2)

/-- Python's rendering of a value interpolated by `str.format` into an
evaluation prompt: a plain string stays itself and `None` prints as
`"None"`. -/
def optFormat : Option Str → Str
  | none => str "None"
  | some s => s

/-- Python's `repr` of a list element when a list is interpolated by
`str.format`: `None` prints bare, a string prints between single quotes
(escape sequences inside the string are elided here; no claim depends on
the text of an evaluation prompt). -/
def pyReprElem : Option Str → Str
  | none => str "None"
  | some s => squote :: s ++ [squote]

/-- Python's `str` of a list of responses, as `str.format` renders the
"Varying Options" payload: `['...', None, ...]`. -/
def pyReprList (l : List (Option Str)) : Str :=
  str "[" ++ joinLines (l.map pyReprElem) ++ str "]"

/-- The string `str.format` substitutes for a variant payload when the
payload is passed as `base_mcq_question` to an evaluation template. -/
def payloadFormat : Payload → Str
  | Payload.pstr s => s
  | Payload.popt o => optFormat o
  | Payload.plist l => pyReprList l

/-- One evaluation record of the `evaluations` dictionary:
`{"CoT": ..., "Self Consistency": [...]}`. -/
structure EvalResult where
  cot : Option Str
  selfConsistency : List (Option Str)
deriving DecidableEq

/-- The `for name, variant in mcqa_variants.items()` loop of
`run_experiment`: evaluates every variant with Chain-of-Thought and
Self-Consistency (default 5 samples), in dictionary insertion order. -/
def evalLoop (svc : Svc) (text : Str) :
    Nat → List (Str × Payload) → List (Str × EvalResult) × Nat
  | k, [] => ([], k)
  | k, (name, v) :: rest =>
    let c := evaluate_with_cot svc k text (payloadFormat v)
    let s := evaluate_with_self_consistency svc text (payloadFormat v) c.2 5
    let next := evalLoop svc text s.2 rest
    ((name, { cot := c.1, selfConsistency := s.1 }) :: next.1, next.2)

/-- The results record `run_experiment` assembles (and then writes to a
timestamped JSON file; the file write is I/O outside the embedding). -/
structure ExperimentRecord where
  base_mcq_with_answer : Str
  variants : List (Str × Payload)
  evaluations : List (Str × EvalResult)
deriving DecidableEq

/-- Embedding of `run_experiment` from `src/mcq_generator.py`. The
`max_tokens` argument is stored in `MCQGenerator.max_token` and never read
by `_query_openai`, so it does not influence any request. When the initial
base-MCQ generation call fails, Python reaches
`extract_question(None)`, whose `None.split("\n")` raises an
`AttributeError` that propagates out of `run_experiment`; the embedding
returns `none` for that aborted run. Otherwise the result is `some` of the
assembled record paired with the total number of completion calls issued. -/
def run_experiment (svc : Svc) (shuffle : List Str → List Str) (text : Str)
    (max_tokens : Nat) (selected_variants : Option (List Str)) :
    Option (ExperimentRecord × Nat) :=
  let q0 := generate_mcq_with_answer svc 0 text BASE_PROMPT_TEMPLATE
  match q0.1 with
  | none => none
  | some base_mcq_with_answer =>
    let base_mcq_question := extract_question base_mcq_with_answer
    let vr := generate_mcq_variants svc shuffle q0.2 text base_mcq_question
      selected_variants
    let c := evaluate_with_cot svc vr.2 text base_mcq_question
    let s := evaluate_with_self_consistency svc text base_mcq_question c.2 5
    let ev := evalLoop svc text s.2 vr.1
    some ({ base_mcq_with_answer := base_mcq_with_answer,
            variants := vr.1,
            evaluations :=
              (str "Base MCQ", { cot := c.1, selfConsistency := s.1 }) :: ev.1 },
          ev.2)

/-- A parsed jinja2 template: literal chunks interleaved with `{{ name }}`
variable slots. -/
inductive Tpl where
  | done : Tpl
  | lit : Str → Tpl → Tpl
  | slot : Str → Tpl → Tpl
deriving DecidableEq

/-- Errors of the jinja2 calls that `process_template` makes:
`Environment.get_template` raises `TemplateNotFound` when the loader cannot
resolve the file under the search path. -/
inductive TemplateErr where
  | templateNotFound : Str → TemplateErr
deriving DecidableEq

/-- Context lookup of `template.render(**context)`. -/
def lookupCtx (context : List (Str × Str)) (x : Str) : Option Str :=
  (context.find? (fun p => decide (p.1 = x))).map Prod.snd

/-- Rendering of a template against a context by jinja2's `render`. The
`Environment` constructed by `process_template` sets a loader and
`autoescape` but leaves `undefined` at its documented default class
`Undefined`, which renders an unknown variable as the empty string instead
of raising; `esc` is the autoescaping applied to substituted values
(`select_autoescape` picks it from the template name — the claims do not
depend on it). -/
def renderTpl (esc : Str → Str) (context : List (Str × Str)) : Tpl → Str
  | Tpl.done => []
  | Tpl.lit s t => s ++ renderTpl esc context t
  | Tpl.slot x t =>
    (match lookupCtx context x with
     | some v => esc v
     | none => []) ++ renderTpl esc context t

/-- Embedding of `process_template` from `src/jinja_helper.py`. The
directory-scoped `FileSystemLoader` is modelled as a partial map `fs` from
template names to parsed templates: `jinja_env.get_template(template_file)`
fails with `TemplateNotFound` exactly when the file does not resolve, and
otherwise the rendered string is returned. -/
def process_template (fs : Str → Option Tpl) (esc : Str → Str)
    (template_file : Str) (context : List (Str × Str)) :
    Except TemplateErr Str :=
  match fs template_file with
  | none => Except.error (TemplateErr.templateNotFound template_file)
  | some t => Except.ok (renderTpl esc context t)

/-- One record produced by `PDFProcessor.extract_text`:
`{"file": ..., "page": ..., "text": ...}`. -/
structure Doc where
  file : Str
  page : Nat
  text : Str
deriving DecidableEq

/-- Embedding of `TextPreprocessor.preprocess_documents` from
`src/llm_mcq/processors/text_processor.py`: the Python loop rebinds
`doc["text"]` to `clean_text(doc["text"])` for each record of the list and
returns the list itself; the in-place update is modelled functionally,
record by record in order. -/
def preprocess_documents : List Doc → List Doc
  | [] => []
  | d :: ds => { d with text := clean_text d.text } :: preprocess_documents ds

/-- A default record used only as the out-of-range result of `List.getD`. -/
def dfltDoc : Doc := { file := [], page := 0, text := [] }

theorem sc_length (svc : Svc) (text question : Str) :
    ∀ n k, ((evaluate_with_self_consistency svc text question k n).1).length = n := by
  intro n
  induction n with
  | zero => intro k; rfl
  | succ m ih =>
    intro k
    simp only [evaluate_with_self_consistency, List.length_cons]
    rw [ih]

theorem sc_counter (svc : Svc) (text question : Str) :
    ∀ n k, (evaluate_with_self_consistency svc text question k n).2 = k + n := by
  intro n
  induction n with
  | zero => intro k; rfl
  | succ m ih =>
    intro k
    simp only [evaluate_with_self_consistency]
    rw [ih]
    simp [queryOpenai]
    omega

theorem sc_getD (svc : Svc) (text question : Str) :
    ∀ n k i, i < n →
      ((evaluate_with_self_consistency svc text question k n).1).getD i none =
        svc (k + i) (SELF_CONSISTENCY_PROMPT_TEMPLATE text question) 1000 := by
  intro n
  induction n with
  | zero => intro k i h; omega
  | succ m ih =>
    intro k i h
    cases i with
    | zero => simp [evaluate_with_self_consistency, queryOpenai]
    | succ j =>
      simp only [evaluate_with_self_consistency, queryOpenai, List.getD_cons_succ]
      rw [ih (k + 1) j (by omega)]
      congr 1
      omega

theorem evalLoop_keys (svc : Svc) (text : Str) :
    ∀ vs k, ((evalLoop svc text k vs).1).map Prod.fst = vs.map Prod.fst := by
  intro vs
  induction vs with
  | nil => intro k; rfl
  | cons hd tl ih =>
    intro k
    obtain ⟨name, v⟩ := hd
    simp only [evalLoop, List.map_cons]
    rw [ih]

theorem evalLoop_entries (svc : Svc) (text : Str) :
    ∀ vs k e, e ∈ (evalLoop svc text k vs).1 →
      (∃ i p, e.2.cot = svc i p 1500) ∧
      e.2.selfConsistency.length = 5 ∧
      ∀ j, j < 5 → ∃ i2 p2, e.2.selfConsistency.getD j none = svc i2 p2 1000 := by
  intro vs
  induction vs with
  | nil => intro k e h; simp [evalLoop] at h
  | cons hd tl ih =>
    intro k e h
    obtain ⟨name, v⟩ := hd
    simp only [evalLoop, List.mem_cons] at h
    rcases h with h | h
    · subst h
      refine ⟨⟨k, CHAIN_OF_THOUGHT_PROMPT_TEMPLATE text (payloadFormat v), rfl⟩, ?_, ?_⟩
      · exact sc_length svc text (payloadFormat v) 5 _
      · intro j hj
        exact ⟨_, _, sc_getD svc text (payloadFormat v) 5 _ j hj⟩
    · exact ih _ e h

/-- A concrete always-succeeding oracle used by witnesses. -/
def constSvc : Svc := fun _ _ _ => some (str "S")

/-- A concrete always-failing oracle used by counterexamples. -/
def failSvc : Svc := fun _ _ _ => none

/-- Counterexample to claim C1: with an explicitly empty selection, Python's
`if not selected_variants` substitutes the default four kinds, so the call
returns a four-entry mapping after issuing five completion requests — not an
empty mapping with zero requests. -/
theorem generate_mcq_variants_empty_cex :
    (generate_mcq_variants constSvc id 0 (str "t") (str "m") (some [])).2 = 5 ∧
    ¬ ((generate_mcq_variants constSvc id 0 (str "t") (str "m") (some [])).1 = [] ∧
       (generate_mcq_variants constSvc id 0 (str "t") (str "m") (some [])).2 = 0) := by
  decide

/-- Claim C1 (amended). `generate_mcq_variants` with an explicitly empty
requested-kinds collection behaves exactly as with no selection at all: the
falsy check `if not selected_variants` replaces the empty list by the
default four kinds, so the call returns the four-entry variant mapping in
default order and issues five completion requests. An empty variant mapping
with zero completion requests is returned exactly when the selection is
non-empty and contains none of the four recognized kind names. -/
theorem generate_mcq_variants_empty_selection (svc : Svc)
    (shuffle : List Str → List Str) (k : Nat) (text base_mcq : Str) :
    ((generate_mcq_variants svc shuffle k text base_mcq (some [])).1.map Prod.fst =
        defaultVariants ∧
      (generate_mcq_variants svc shuffle k text base_mcq (some [])).2 = k + 5) ∧
    ∀ l, l ≠ [] → (∀ v ∈ defaultVariants, v ∉ l) →
      generate_mcq_variants svc shuffle k text base_mcq (some l) = ([], k) := by
  constructor
  · have h1 : str "Re-ordered Options" ∈ defaultVariants := by decide
    have h2 : str "Varying Options" ∈ defaultVariants := by decide
    have h3 : str "None of the Above" ∈ defaultVariants := by decide
    have h4 : str "True or False" ∈ defaultVariants := by decide
    simp only [generate_mcq_variants, if_pos rfl, if_pos h1, if_pos h2, if_pos h3,
      if_pos h4, generate_mcq_with_varying_options, replace_with_none_of_the_above,
      generate_true_false_questions, queryOpenai, List.map_append, List.map_cons,
      List.map_nil, List.append_assoc]
    constructor
    · rfl
    · rfl
  · intro l hne hnot
    have h1 : ¬ (str "Re-ordered Options" ∈ l) := hnot _ (by decide)
    have h2 : ¬ (str "Varying Options" ∈ l) := hnot _ (by decide)
    have h3 : ¬ (str "None of the Above" ∈ l) := hnot _ (by decide)
    have h4 : ¬ (str "True or False" ∈ l) := hnot _ (by decide)
    simp only [generate_mcq_variants, if_neg hne, if_neg h1, if_neg h2, if_neg h3,
      if_neg h4]

/-- Witness for C1's theorem: a non-empty unrecognized selection yields the
empty mapping and leaves the call counter unchanged. -/
theorem generate_mcq_variants_empty_selection_witness :
    generate_mcq_variants constSvc id 0 (str "t") (str "m") (some [str "x"]) = ([], 0) :=
  (generate_mcq_variants_empty_selection constSvc id 0 (str "t") (str "m")).2
    [str "x"] (by decide) (by decide)

/-- Counterexample to claim C2: `clean_text " @ "` first collapses
whitespace (a no-op here) and only then deletes `@`, leaving two adjacent
spaces; a second application collapses them, so the function is not
idempotent either. -/
theorem clean_text_cex :
    noConsecWs (clean_text (str " @ ")) = false ∧
    clean_text (clean_text (str " @ ")) ≠ clean_text (str " @ ") := by
  decide

/-- Claim C2 (amended). Every character of `clean_text s` lies in the
allowed class `{word chars, whitespace, . , ! ?}`. Because whitespace runs
are collapsed before the disallowed characters between them are deleted,
adjacent whitespace can survive and `clean_text` need not be idempotent;
both of the claimed properties do hold whenever the input contains only
allowed characters. -/
theorem clean_text_spec (s : Str) :
    (∀ c ∈ clean_text s, isAllowed c = true) ∧
    ((∀ c ∈ s, isAllowed c = true) →
      noConsecWs (clean_text s) = true ∧ clean_text (clean_text s) = clean_text s) := by
  refine ⟨clean_text_chars_allowed s, ?_⟩
  intro h
  refine ⟨?_, clean_text_idem_of_allowed s h⟩
  rw [clean_text_of_allowed s h]
  exact noConsecWs_collapse s false

/-- Witness for C2's theorem at an input of allowed characters. -/
theorem clean_text_spec_witness :
    noConsecWs (clean_text (str "a  b!")) = true ∧
    clean_text (clean_text (str "a  b!")) = clean_text (str "a  b!") :=
  (clean_text_spec (str "a  b!")).2 (by decide)

/-- Claim C4. `evaluate_with_self_consistency` over any text, question and
sample count `n` returns a list of length exactly `n` whose `i`-th element
is the raw result of the `i`-th completion call in call order (`none`
preserved in place for an individual failed call), and advances the call
counter by exactly `n`. -/
theorem evaluate_with_self_consistency_spec (svc : Svc) (text question : Str)
    (k n : Nat) :
    ((evaluate_with_self_consistency svc text question k n).1).length = n ∧
    (evaluate_with_self_consistency svc text question k n).2 = k + n ∧
    ∀ i, i < n →
      ((evaluate_with_self_consistency svc text question k n).1).getD i none =
        svc (k + i) (SELF_CONSISTENCY_PROMPT_TEMPLATE text question) 1000 :=
  ⟨sc_length svc text question n k, sc_counter svc text question n k,
   fun i h => sc_getD svc text question n k i h⟩

/-- An oracle whose second call (index 1) fails and whose others succeed. -/
def altSvc : Svc := fun i _ _ => if i = 1 then none else some (str "ok")

/-- Witness for C4's theorem: three samples with the second call failing
give a length-3 list whose middle entry is `none`. -/
theorem evaluate_with_self_consistency_spec_witness :
    ((evaluate_with_self_consistency altSvc (str "t") (str "q") 0 3).1).length = 3 ∧
    ((evaluate_with_self_consistency altSvc (str "t") (str "q") 0 3).1).getD 1 none =
      none := by
  refine ⟨(evaluate_with_self_consistency_spec altSvc (str "t") (str "q") 0 3).1, ?_⟩
  have h := (evaluate_with_self_consistency_spec altSvc (str "t") (str "q") 0 3).2.2
    1 (by decide)
  rw [h]
  rfl

/-- Claim C5. When `shuffle` permutes its argument (the contract of
`random.shuffle`), `reorder_options` returns the newline-join of a list `L`
that is a permutation of the option lines of the input — the same lines as
a set; when the input has exactly four option lines, `L` again has four
lines, and with fewer markers whatever subset exists is returned (the
function is total, so no input makes it error). -/
theorem reorder_options_perm (shuffle : List Str → List Str)
    (hp : ∀ l, List.Perm (shuffle l) l) (base_mcq : Str) :
    ∃ L, reorder_options shuffle base_mcq = joinLines L ∧
      List.Perm L ((splitLines base_mcq).filter isOptionLine) ∧
      (((splitLines base_mcq).filter isOptionLine).length = 4 → L.length = 4) :=
  ⟨shuffle ((splitLines base_mcq).filter isOptionLine), rfl, hp _,
   fun h4 => by rw [(hp _).length_eq, h4]⟩

/-- Witness for C5's theorem at a base MCQ with exactly four option lines,
with the identity permutation standing for one outcome of the shuffle. -/
theorem reorder_options_perm_witness :
    ∃ L, reorder_options id (str "Q?\na) one\nb) two\nc) three\nd) four") =
        joinLines L ∧
      List.Perm L
        ((splitLines (str "Q?\na) one\nb) two\nc) three\nd) four")).filter
          isOptionLine) ∧
      (((splitLines (str "Q?\na) one\nb) two\nc) three\nd) four")).filter
          isOptionLine).length = 4 → L.length = 4) :=
  reorder_options_perm id (fun l => List.Perm.refl l)
    (str "Q?\na) one\nb) two\nc) three\nd) four")

/-- Claim C9. When `shuffle` permutes its argument, the output of
`reorder_options` is the newline-join of a list of lines each of which both
starts with one of the four option markers and is a line of the input: the
question stem and every other non-option line are absent. -/
theorem reorder_options_only_option_lines (shuffle : List Str → List Str)
    (hp : ∀ l, List.Perm (shuffle l) l) (base_mcq : Str) :
    ∃ L, reorder_options shuffle base_mcq = joinLines L ∧
      ∀ line ∈ L, isOptionLine line = true ∧ line ∈ splitLines base_mcq := by
  refine ⟨shuffle ((splitLines base_mcq).filter isOptionLine), rfl, ?_⟩
  intro line hline
  have hmem : line ∈ (splitLines base_mcq).filter isOptionLine :=
    (hp _).mem_iff.mp hline
  exact ⟨List.of_mem_filter hmem, List.mem_of_mem_filter hmem⟩

/-- Witness for C9's theorem at an input mixing option and non-option lines. -/
theorem reorder_options_only_option_lines_witness :
    ∃ L, reorder_options id (str "Intro line\nc) C\nd) D\nAnswer: c") =
        joinLines L ∧
      ∀ line ∈ L, isOptionLine line = true ∧
        line ∈ splitLines (str "Intro line\nc) C\nd) D\nAnswer: c") :=
  reorder_options_only_option_lines id (fun l => List.Perm.refl l)
    (str "Intro line\nc) C\nd) D\nAnswer: c")

/-- Counterexample to claim C6: the input consisting of the single line
`" **Correct Answer:** a"` contains zero lines starting with the marker
(the leading space defeats the prefix test), yet the final `strip` of the
first application exposes the marker at the start of the line, so the
second application deletes it: `extract_question` is not idempotent there. -/
theorem extract_question_cex :
    ((splitLines (str " **Correct Answer:** a")).filter isAnswerLine).length ≤ 1 ∧
    extract_question (extract_question (str " **Correct Answer:** a")) ≠
      extract_question (str " **Correct Answer:** a") := by
  decide

/-- Claim C6 (amended). `extract_question` is idempotent on every input
whose first application leaves no line that starts (case-insensitively)
with the correct-answer marker — in particular on inputs with zero or one
marker line in which the final strip does not expose a new marker line.
In general the trailing `strip` can turn a line of leading whitespace
followed by the marker into a marker line that only a second application
removes. -/
theorem extract_question_idem (s : Str)
    (h : ∀ line ∈ splitLines (extract_question s), isAnswerLine line = false) :
    extract_question (extract_question s) = extract_question s := by
  rw [extract_question_eq_strip_of_clean _ h]
  show strip (strip (joinLines ((splitLines s).filter (fun line => !isAnswerLine line)))) =
    strip (joinLines ((splitLines s).filter (fun line => !isAnswerLine line)))
  exact strip_idem _

/-- Witness for C6's theorem at an MCQ with exactly one marker line. -/
theorem extract_question_idem_witness :
    extract_question (extract_question (str "Q?\na) x\n**Correct Answer:** a")) =
      extract_question (str "Q?\na) x\n**Correct Answer:** a") :=
  extract_question_idem (str "Q?\na) x\n**Correct Answer:** a") (by decide)

/-- Counterexample to claim C3: when the very first completion call (the
base-MCQ generation) fails, `run_experiment` does not complete with a null
propagated into a results record — `extract_question(None)` raises, so the
run aborts with no record at all. -/
theorem run_experiment_abort_cex :
    run_experiment failSvc id (str "t") 1500 (some [str "x"]) = none := rfl

/-- Claim C3 (amended). Once the initial base-MCQ generation call succeeds,
a failure of any later remote completion call is surfaced as `none` for
that specific call only and never aborts `run_experiment`: the experiment
completes and assembles a results record in which every evaluation value is
the raw per-call service response (with `none` propagated in place, never
replaced by a default question). A failure of the initial call, however,
aborts the run: `extract_question` is applied to the null result and
raises. -/
theorem run_experiment_null_propagation (svc : Svc) (shuffle : List Str → List Str)
    (text : Str) (max_tokens : Nat) (sel : Option (List Str)) (b : Str)
    (h : svc 0 (BASE_PROMPT_TEMPLATE text) 500 = some b) :
    ∃ r k, run_experiment svc shuffle text max_tokens sel = some (r, k) ∧
      r.base_mcq_with_answer = b ∧
      ∀ e ∈ r.evaluations,
        (∃ i p, e.2.cot = svc i p 1500) ∧
        e.2.selfConsistency.length = 5 ∧
        ∀ j, j < 5 → ∃ i2 p2, e.2.selfConsistency.getD j none = svc i2 p2 1000 := by
  simp only [run_experiment, generate_mcq_with_answer, queryOpenai]
  rw [h]
  refine ⟨_, _, rfl, rfl, ?_⟩
  intro e he
  simp only [List.mem_cons] at he
  rcases he with he | he
  · subst he
    refine ⟨⟨_, _, rfl⟩, sc_length svc text _ 5 _, ?_⟩
    intro j hj
    exact ⟨_, _, sc_getD svc text _ 5 _ j hj⟩
  · exact evalLoop_entries svc text _ _ e he

/-- Witness for C3's theorem: with an oracle that answers the first call,
the experiment completes and every evaluation value is a raw response. -/
theorem run_experiment_null_propagation_witness :
    ∃ r k, run_experiment constSvc id (str "t") 1500 (some [str "x"]) = some (r, k) ∧
      r.base_mcq_with_answer = str "S" ∧
      ∀ e ∈ r.evaluations,
        (∃ i p, e.2.cot = constSvc i p 1500) ∧
        e.2.selfConsistency.length = 5 ∧
        ∀ j, j < 5 → ∃ i2 p2,
          e.2.selfConsistency.getD j none = constSvc i2 p2 1000 :=
  run_experiment_null_propagation constSvc id (str "t") 1500 (some [str "x"])
    (str "S") rfl

/-- Claim C7. Every results record assembled by a completed
`run_experiment` keys its evaluations mapping by exactly the literal
`"Base MCQ"` label followed by the keys of its variants mapping, in order —
a 1:1 correspondence with no extra and no missing keys. -/
theorem run_experiment_evaluation_keys (svc : Svc) (shuffle : List Str → List Str)
    (text : Str) (max_tokens : Nat) (sel : Option (List Str))
    (r : ExperimentRecord) (k : Nat)
    (h : run_experiment svc shuffle text max_tokens sel = some (r, k)) :
    r.evaluations.map Prod.fst = str "Base MCQ" :: r.variants.map Prod.fst := by
  simp only [run_experiment, generate_mcq_with_answer, queryOpenai] at h
  rcases hE : svc 0 (BASE_PROMPT_TEMPLATE text) 500 with _ | b
  · rw [hE] at h
    exact absurd h (by simp)
  · rw [hE] at h
    have h2 := Option.some.inj h
    have hr := congrArg Prod.fst h2
    simp only at hr
    rw [← hr]
    simp only [List.map_cons]
    rw [evalLoop_keys]

/-- The record assembled by a concrete completed experiment (used solely by
the witness of C7's theorem). -/
def recC7 : ExperimentRecord :=
  match run_experiment constSvc id (str "t") 1500 (some [str "Re-ordered Options"]) with
  | some (r, _) => r
  | none => { base_mcq_with_answer := [], variants := [], evaluations := [] }

/-- Witness for C7's theorem at a concrete completed experiment. -/
theorem run_experiment_evaluation_keys_witness :
    recC7.evaluations.map Prod.fst = str "Base MCQ" :: recC7.variants.map Prod.fst :=
  run_experiment_evaluation_keys constSvc id (str "t") 1500
    (some [str "Re-ordered Options"]) recC7 13 (by rfl)

/-- A one-template loader: `greeting.txt` renders a literal followed by the
variable `name` (used by C8's counterexample and witness). -/
def fsC8 : Str → Option Tpl := fun f =>
  if f = str "greeting.txt" then
    some (Tpl.lit (str "Hello ") (Tpl.slot (str "name") Tpl.done))
  else none

/-- Counterexample to claim C8: the template references the context key
`name`, the supplied context is empty, and the call still succeeds — the
`Environment` of `process_template` leaves `undefined` at jinja2's default
`Undefined`, which renders the missing variable as a silent blank instead
of failing with an UndefinedVariable-type error. -/
theorem process_template_cex :
    process_template fsC8 id (str "greeting.txt") [] = Except.ok (str "Hello ") := rfl

/-- Claim C8 (amended). `process_template` fails with a
TemplateNotFound-type error exactly when the named template file does not
resolve under the template directory; once the template is found, rendering
always succeeds — a context key the template references but the mapping
does not supply is rendered as the empty string (jinja2's default
non-strict `Undefined`; `StrictUndefined` is not configured), not as an
UndefinedVariable-type error. -/
theorem process_template_spec (fs : Str → Option Tpl) (esc : Str → Str)
    (template_file : Str) (context : List (Str × Str)) :
    (fs template_file = none →
      process_template fs esc template_file context =
        Except.error (TemplateErr.templateNotFound template_file)) ∧
    (∀ t, fs template_file = some t →
      process_template fs esc template_file context =
        Except.ok (renderTpl esc context t)) ∧
    ∀ x rest, lookupCtx context x = none →
      renderTpl esc context (Tpl.slot x rest) = renderTpl esc context rest := by
  refine ⟨?_, ?_, ?_⟩
  · intro h
    simp [process_template, h]
  · intro t h
    simp [process_template, h]
  · intro x rest h
    simp [renderTpl, h]

/-- Witness for C8's theorem: a file the loader cannot resolve yields the
TemplateNotFound-type error. -/
theorem process_template_spec_witness :
    process_template fsC8 id (str "missing.txt") [] =
      Except.error (TemplateErr.templateNotFound (str "missing.txt")) :=
  (process_template_spec fsC8 id (str "missing.txt") []).1 (by decide)

/-- Claim C10. `preprocess_documents` returns a list of the same length and
record order as its input in which each record's `file` and `page` fields
are unchanged and only the `text` field is replaced by `clean_text` of its
previous value. (The Python function updates the records of the given list
in place and returns that same list; object identity is outside the
functional embedding, which proves the frame conditions.) -/
theorem preprocess_documents_frame (docs : List Doc) :
    (preprocess_documents docs).length = docs.length ∧
    ∀ i, i < docs.length →
      ((preprocess_documents docs).getD i dfltDoc).file = (docs.getD i dfltDoc).file ∧
      ((preprocess_documents docs).getD i dfltDoc).page = (docs.getD i dfltDoc).page ∧
      ((preprocess_documents docs).getD i dfltDoc).text =
        clean_text ((docs.getD i dfltDoc).text) := by
  induction docs with
  | nil => exact ⟨rfl, fun i h => absurd h (by simp)⟩
  | cons d ds ih =>
    refine ⟨?_, ?_⟩
    · simp only [preprocess_documents, List.length_cons, ih.1]
    · intro i h
      cases i with
      | zero => exact ⟨rfl, rfl, rfl⟩
      | succ j =>
        simp only [preprocess_documents, List.getD_cons_succ]
        refine ih.2 j ?_
        simp only [List.length_cons] at h
        omega

/-- Witness for C10's theorem at a one-record batch. -/
theorem preprocess_documents_frame_witness :
    ((preprocess_documents [{ file := str "f.pdf", page := 1, text := str "a  b." }]).getD
        0 dfltDoc).file =
      (([{ file := str "f.pdf", page := 1, text := str "a  b." }] : List Doc).getD
        0 dfltDoc).file ∧
    ((preprocess_documents [{ file := str "f.pdf", page := 1, text := str "a  b." }]).getD
        0 dfltDoc).page =
      (([{ file := str "f.pdf", page := 1, text := str "a  b." }] : List Doc).getD
        0 dfltDoc).page ∧
    ((preprocess_documents [{ file := str "f.pdf", page := 1, text := str "a  b." }]).getD
        0 dfltDoc).text =
      clean_text ((([{ file := str "f.pdf", page := 1, text := str "a  b." }] : List Doc).getD
        0 dfltDoc).text) :=
  (preprocess_documents_frame
    [{ file := str "f.pdf", page := 1, text := str "a  b." }]).2 0 (by decide)
